import Mathlib

/-!
Verification of the KeyFetch regional proxy node.

The embedding models the single-process server: token verification with a
positive-result cache over the external identity service, the usage ledger
with batched flush and push-back on failure, and the fetch, usage and health
route handlers.  External effects (the identity backend, the outbound fetch,
wall-clock time, JSON/URL parsing done by the platform) are passed in as
explicit oracle arguments, so each handler is a pure function from the
pre-state and the answers of the environment to the post-state and the
HTTP response.
-/

namespace KeyFetch

/-- Models JS string method startsWith, computed over the character list. -/
def jsStartsWith (s pre : String) : Bool :=
  List.isPrefixOf pre.data s.data

/-- Models JS string method slice for a non-negative index, computed over
the character list. -/
def jsSlice (s : String) (n : Nat) : String :=
  String.mk (s.data.drop n)

/-- Models JS string length, computed over the character list. -/
def jsLength (s : String) : Nat :=
  s.data.length

/-- Verification result returned by the KeyKeeper verify endpoint
(interface VerifyResponse in the source). -/
structure VerifyResponse where
  valid : Bool
  agent_id : Option String := none
  email : Option String := none
  balance : Option Int := none
  cost_per_unit : Option Int := none
  can_afford : Option Bool := none
  error : Option String := none
deriving Repr, DecidableEq

/-- One token-cache entry: a verification result and its absolute expiry
timestamp in milliseconds. -/
structure CacheEntry where
  result : VerifyResponse
  expires : Nat
deriving Repr, DecidableEq

/-- The token cache (a Map from token strings to entries in the source),
modelled as an association list with at most one binding per token. -/
abbrev TokenCache := List (String × CacheEntry)

/-- Models tokenCache.get. -/
def cacheGet (cache : TokenCache) (token : String) : Option CacheEntry :=
  (cache.find? (fun p => decide (p.1 = token))).map (fun p => p.2)

/-- Models tokenCache.set, which replaces any existing binding. -/
def cacheSet (cache : TokenCache) (token : String) (entry : CacheEntry) : TokenCache :=
  (token, entry) :: cache.filter (fun p => !(decide (p.1 = token)))

/-- TOKEN_CACHE_TTL = 60000 milliseconds (1 minute). -/
def TOKEN_CACHE_TTL : Nat := 60000

/-- Outcome of the HTTP call to the KeyKeeper verify endpoint: either the
fetch/json step throws, or it decodes to a VerifyResponse value. -/
inductive VerifyBackend where
  | failure
  | response (data : VerifyResponse)
deriving Repr, DecidableEq

/-- Result of one verifyToken invocation: the returned value, the token
cache afterwards, and whether the backend endpoint was actually called. -/
structure VerifyOutcome where
  result : VerifyResponse
  cache : TokenCache
  backendCalled : Bool
deriving Repr, DecidableEq

/-- Result for an empty token: valid false with reason "No token provided". -/
def noTokenResult : VerifyResponse :=
  { valid := false, error := some "No token provided" }

/-- Result for a thrown backend error: valid false with reason
"Authentication service unavailable". -/
def unavailableResult : VerifyResponse :=
  { valid := false, error := some "Authentication service unavailable" }

/-- Backend part of verifyToken (the try/catch around the fetch): call the
verify endpoint, cache the result iff it is valid, fail closed on any
thrown error. -/
def verifyBackendCall (cache : TokenCache) (token : String) (now : Nat) :
    VerifyBackend → VerifyOutcome
  | .failure => ⟨unavailableResult, cache, true⟩
  | .response data =>
      if data.valid then
        ⟨data, cacheSet cache token ⟨data, now + TOKEN_CACHE_TTL⟩, true⟩
      else
        ⟨data, cache, true⟩

/-- Models verifyToken: an empty token short-circuits; an unexpired cache
entry is returned unchanged with no backend call; otherwise the backend is
consulted. -/
def verifyToken (cache : TokenCache) (token : String) (now : Nat)
    (backend : VerifyBackend) : VerifyOutcome :=
  if token = "" then
    ⟨noTokenResult, cache, false⟩
  else
    match cacheGet cache token with
    | some cached =>
        if now < cached.expires then ⟨cached.result, cache, false⟩
        else verifyBackendCall cache token now backend
    | none => verifyBackendCall cache token now backend

/-- Metadata sub-record of a usage record. -/
structure UsageMetadata where
  region : String
  target_domain : String
  latency_ms : Nat
  status : Nat
  bytes : Nat
deriving Repr, DecidableEq

/-- One pending usage record (interface UsageRecord in the source). -/
structure UsageRecord where
  agent_id : String
  operation : String
  quantity : Nat
  timestamp : String
  metadata : UsageMetadata
deriving Repr, DecidableEq

/-- Outcome of the usage-ingestion POST: response.ok, or a non-ok status /
thrown transport error (both take the push-back path in the source). -/
inductive FlushBackend where
  | ok
  | failure
deriving Repr, DecidableEq

/-- Result of one reportUsage cycle: the ledger afterwards, the batch that
was drained at the start of the cycle, and whether the backend accepted
it. -/
structure FlushOutcome where
  pending : List UsageRecord
  batch : List UsageRecord
  accepted : Bool
deriving Repr, DecidableEq

/-- Models reportUsage.  The argument pending is the ledger when the flush
starts; midAppends are the records the request path appends between the
splice and the end of the awaited network call — they land after the
splice, so they are never part of the batch; on failure the exact batch is
pushed back onto the ledger. -/
def reportUsage (pending midAppends : List UsageRecord) (backend : FlushBackend) :
    FlushOutcome :=
  if pending = [] then
    ⟨midAppends, [], false⟩
  else
    match backend with
    | .ok => ⟨midAppends, pending, true⟩
    | .failure => ⟨midAppends ++ pending, pending, false⟩

/-- A sequence of flush cycles: each step supplies the records appended
mid-flush and the answer of the backend.  Returns the final ledger and the
concatenation of all batches the backend accepted. -/
def runFlushes (pending : List UsageRecord) :
    List (List UsageRecord × FlushBackend) → List UsageRecord × List UsageRecord
  | [] => (pending, [])
  | (mid, b) :: rest =>
      let out := reportUsage pending mid b
      let next := runFlushes out.pending rest
      (next.1, (if out.accepted then out.batch else []) ++ next.2)

/-- Hostname of a parsed target URL (the hostname field of new URL). -/
structure ParsedUrl where
  hostname : String
deriving Repr, DecidableEq

/-- Parsed JSON body of a fetch request (interface FetchRequest). -/
structure FetchRequest where
  url : Option String := none
  method : Option String := none
  reqHeaders : List (String × String) := []
  reqBody : Option String := none
  timeout : Option Int := none
deriving Repr, DecidableEq

/-- JS falsiness of the url field: absent or the empty string. -/
def urlMissing : Option String → Bool
  | none => true
  | some s => decide (s = "")

/-- Blocked-host predicate of the fetch route: loopback plus the
literal-prefix private ranges. -/
def isBlockedHost (hostname : String) : Bool :=
  decide (hostname = "localhost") || decide (hostname = "127.0.0.1")
    || jsStartsWith hostname "192.168." || jsStartsWith hostname "10."

/-- Models the JS expression that defaults the timeout: 0 is falsy, so it
also falls back to 30000. -/
def timeoutOrDefault : Option Int → Int
  | none => 30000
  | some v => if v = 0 then 30000 else v

/-- Models the clamp Math.min(requested-or-default, 30000). -/
def clampTimeout (t : Option Int) : Int :=
  min (timeoutOrDefault t) 30000

/-- Outcome of the outbound fetch together with reading the response body:
a completed response, a timeout/abort, another thrown JS Error, or a thrown
value that is not an Error instance. -/
inductive OutboundOutcome where
  | success (status : Nat) (respHeaders : List (String × String)) (respBody : String)
  | timeoutErr
  | fetchErr (msg : String)
  | unknownErr
deriving Repr, DecidableEq

/-- Success envelope of the fetch route (interface FetchResponse). -/
structure FetchResponse where
  status : Nat
  respHeaders : List (String × String)
  body : String
  region : String
  latency_ms : Nat
deriving Repr, DecidableEq

/-- JSON payload plus HTTP status the route hands back.  Fields that a
given response does not carry are none. -/
structure RouteOutput where
  httpStatus : Nat
  errorMsg : Option String := none
  region : Option String := none
  latency_ms : Option Nat := none
  balance : Option Int := none
  cost_per_request : Option Int := none
  fetchResult : Option FetchResponse := none
deriving Repr, DecidableEq

/-- Full effect of one fetch request: the response, the ledger and cache
afterwards, whether the outbound call was issued, whether the over-cap
flush was fired (fire-and-forget, never awaited), and the timeout passed to
the abort signal when an outbound call was made. -/
structure FetchEffect where
  output : RouteOutput
  pending : List UsageRecord
  cache : TokenCache
  outboundCalled : Bool
  flushTriggered : Bool
  timeoutMs : Option Int := none
deriving Repr, DecidableEq

/-- Bearer-token extraction from the authorization header: check the
"Bearer " scheme, then slice off the first seven characters. -/
def bearerToken : Option String → Option String
  | none => none
  | some h => if jsStartsWith h "Bearer " then some (jsSlice h 7) else none

/-- Models the POST /v1/fetch handler.  The argument now is the clock at
entry, elapsed the measured latency when the outbound call settles,
bodyParse the result of JSON body parsing (none = it threw), parsedUrl the
result of URL parsing (none = it threw), outbound the outcome of the
forwarded fetch, and timestamp the ISO instant stamped on the record. -/
def handleFetch (region : String) (pending : List UsageRecord) (cache : TokenCache)
    (authHeader : Option String) (verifyB : VerifyBackend) (now : Nat)
    (bodyParse : Option FetchRequest) (parsedUrl : Option ParsedUrl)
    (outbound : OutboundOutcome) (elapsed : Nat) (timestamp : String) : FetchEffect :=
  match bearerToken authHeader with
  | none =>
      { output := { httpStatus := 401,
                    errorMsg := some "Missing or invalid Authorization header" },
        pending := pending, cache := cache, outboundCalled := false,
        flushTriggered := false }
  | some token =>
      let v := verifyToken cache token now verifyB
      if v.result.valid = false then
        { output := { httpStatus := 401, errorMsg := v.result.error },
          pending := pending, cache := v.cache, outboundCalled := false,
          flushTriggered := false }
      else if v.result.can_afford = some false then
        { output := { httpStatus := 402, errorMsg := some "Insufficient credits",
                      balance := v.result.balance,
                      cost_per_request := v.result.cost_per_unit },
          pending := pending, cache := v.cache, outboundCalled := false,
          flushTriggered := false }
      else
        match bodyParse with
        | none =>
            { output := { httpStatus := 400, errorMsg := some "Invalid JSON body" },
              pending := pending, cache := v.cache, outboundCalled := false,
              flushTriggered := false }
        | some body =>
            if urlMissing body.url then
              { output := { httpStatus := 400,
                            errorMsg := some "Missing required field: url" },
                pending := pending, cache := v.cache, outboundCalled := false,
                flushTriggered := false }
            else
              match parsedUrl with
              | none =>
                  { output := { httpStatus := 400, errorMsg := some "Invalid URL" },
                    pending := pending, cache := v.cache, outboundCalled := false,
                    flushTriggered := false }
              | some targetUrl =>
                  if isBlockedHost targetUrl.hostname then
                    { output := { httpStatus := 403,
                                  errorMsg := some "Internal URLs not allowed" },
                      pending := pending, cache := v.cache, outboundCalled := false,
                      flushTriggered := false }
                  else
                    let timeout := clampTimeout body.timeout
                    match outbound with
                    | .success status respHeaders respBody =>
                        let newRecord : UsageRecord :=
                          { agent_id := (v.result.agent_id).getD "",
                            operation := "proxy_request", quantity := 1,
                            timestamp := timestamp,
                            metadata := { region := region,
                                          target_domain := targetUrl.hostname,
                                          latency_ms := elapsed, status := status,
                                          bytes := jsLength respBody } }
                        let newPending := pending ++ [newRecord]
                        let envelope : FetchResponse :=
                          { status := status, respHeaders := respHeaders,
                            body := respBody, region := region,
                            latency_ms := elapsed }
                        { output := { httpStatus := 200, fetchResult := some envelope },
                          pending := newPending, cache := v.cache,
                          outboundCalled := true,
                          flushTriggered := decide (newPending.length > 10000),
                          timeoutMs := some timeout }
                    | .timeoutErr =>
                        { output := { httpStatus := 504,
                                      errorMsg := some "Request timeout",
                                      region := some region,
                                      latency_ms := some elapsed },
                          pending := pending, cache := v.cache,
                          outboundCalled := true, flushTriggered := false,
                          timeoutMs := some timeout }
                    | .fetchErr msg =>
                        { output := { httpStatus := 502, errorMsg := some msg,
                                      region := some region,
                                      latency_ms := some elapsed },
                          pending := pending, cache := v.cache,
                          outboundCalled := true, flushTriggered := false,
                          timeoutMs := some timeout }
                    | .unknownErr =>
                        { output := { httpStatus := 500,
                                      errorMsg := some "Unknown error",
                                      region := some region,
                                      latency_ms := some elapsed },
                          pending := pending, cache := v.cache,
                          outboundCalled := true, flushTriggered := false,
                          timeoutMs := some timeout }

/-- Response of GET /v1/usage plus the cache after its verify call. -/
structure UsageEffect where
  httpStatus : Nat
  errorMsg : Option String := none
  agent_id : Option String := none
  email : Option String := none
  balance : Option Int := none
  region : Option String := none
  pending_records : Option Nat := none
  cost_per_request : Option Int := none
  cache : TokenCache
deriving Repr, DecidableEq

/-- Models the GET /v1/usage handler: authenticate, then report the count
of pending records filtered to the agent_id of the requester. -/
def handleUsage (region : String) (pending : List UsageRecord) (cache : TokenCache)
    (authHeader : Option String) (verifyB : VerifyBackend) (now : Nat) : UsageEffect :=
  match bearerToken authHeader with
  | none => { httpStatus := 401, errorMsg := some "Unauthorized", cache := cache }
  | some token =>
      let v := verifyToken cache token now verifyB
      if v.result.valid = false then
        { httpStatus := 401, errorMsg := v.result.error, cache := v.cache }
      else
        let agentUsage :=
          pending.filter (fun r => decide (some r.agent_id = v.result.agent_id))
        { httpStatus := 200, agent_id := v.result.agent_id, email := v.result.email,
          balance := v.result.balance, region := some region,
          pending_records := some agentUsage.length,
          cost_per_request := v.result.cost_per_unit, cache := v.cache }

/-- Response of GET /health. -/
structure HealthOutput where
  status : String
  region : String
  timestamp : String
  pending_usage_records : Nat
deriving Repr, DecidableEq

/-- Models the GET /health handler: reports the total pending-ledger
length. -/
def handleHealth (region timestamp : String) (pending : List UsageRecord) :
    HealthOutput :=
  { status := "ok", region := region, timestamp := timestamp,
    pending_usage_records := pending.length }

/-- Cache invariant: every stored entry carries a valid result. -/
def cacheValidOnly (cache : TokenCache) : Prop :=
  ∀ p ∈ cache, p.2.result.valid = true

/-- Concrete valid verification result used by witnesses. -/
def wAuth : VerifyResponse :=
  { valid := true, agent_id := some "agent-A", email := some "a@example.com",
    balance := some 100, cost_per_unit := some 2, can_afford := some true }

/-- Concrete invalid verification result used by witnesses. -/
def wInvalid : VerifyResponse := { valid := false, error := some "Invalid token" }

/-- Concrete usage record for a given agent, used by witnesses. -/
def wRecord (aid : String) : UsageRecord :=
  { agent_id := aid, operation := "proxy_request", quantity := 1,
    timestamp := "2025-01-01T00:00:00Z",
    metadata := { region := "us-east", target_domain := "example.com",
                  latency_ms := 50, status := 200, bytes := 5 } }

/-- Concrete fetch request body used by witnesses. -/
def wBody : FetchRequest := { url := some "https://example.com/x", timeout := some 5000 }

/-- Concrete timestamp used by witnesses. -/
def wTs : String := "2025-01-01T00:00:00Z"

/-! ## Helper lemmas -/

theorem cacheValidOnly_cacheSet {c : TokenCache} {t : String} {e : CacheEntry}
    (hc : cacheValidOnly c) (he : e.result.valid = true) :
    cacheValidOnly (cacheSet c t e) := by
  intro q hq
  rcases List.mem_cons.mp hq with h1 | h2
  · simp [h1, he]
  · exact hc q (List.mem_of_mem_filter h2)

theorem cacheGet_valid {c : TokenCache} {t : String} {e : CacheEntry}
    (hc : cacheValidOnly c) (hg : cacheGet c t = some e) : e.result.valid = true := by
  unfold cacheGet at hg
  rcases hfind : c.find? (fun p => decide (p.1 = t)) with _ | q
  · simp [hfind] at hg
  · have hmem := List.mem_of_find?_eq_some hfind
    simp [hfind] at hg
    subst hg
    exact hc q hmem

theorem cacheGet_cacheSet_self (c : TokenCache) (t : String) (e : CacheEntry) :
    cacheGet (cacheSet c t e) t = some e := by
  simp [cacheGet, cacheSet, List.find?]

theorem verifyBackendCall_called (c : TokenCache) (t : String) (n : Nat)
    (b : VerifyBackend) : (verifyBackendCall c t n b).backendCalled = true := by
  cases b with
  | failure => rfl
  | response data => by_cases h : data.valid <;> simp [verifyBackendCall, h]

theorem verify_cache_unchanged_of_invalid (c : TokenCache) (token : String)
    (n : Nat) (b : VerifyBackend)
    (hinv : (verifyToken c token n b).result.valid = false) :
    (verifyToken c token n b).cache = c := by
  unfold verifyToken at *
  by_cases ht : token = "" <;> simp [ht] at hinv ⊢
  rcases hg : cacheGet c token with _ | cached <;> simp [hg] at hinv ⊢
  · cases b with
    | failure => rfl
    | response data =>
        by_cases hv : data.valid <;> simp [verifyBackendCall, hv] at hinv ⊢
  · by_cases hexp : n < cached.expires <;> simp [hexp] at hinv ⊢
    cases b with
    | failure => rfl
    | response data =>
        by_cases hv : data.valid <;> simp [verifyBackendCall, hv] at hinv ⊢

theorem cacheValidOnly_backendCall (c : TokenCache) (token : String) (n : Nat)
    (b : VerifyBackend) (hc : cacheValidOnly c) :
    cacheValidOnly (verifyBackendCall c token n b).cache := by
  cases b with
  | failure => exact hc
  | response data =>
      by_cases hv : data.valid <;> simp [verifyBackendCall, hv]
      · exact cacheValidOnly_cacheSet hc hv
      · exact hc

theorem cacheValidOnly_verify (c : TokenCache) (token : String) (n : Nat)
    (b : VerifyBackend) (hc : cacheValidOnly c) :
    cacheValidOnly (verifyToken c token n b).cache := by
  unfold verifyToken
  by_cases ht : token = "" <;> simp [ht]
  · exact hc
  · rcases hg : cacheGet c token with _ | cached <;> simp [hg]
    · exact cacheValidOnly_backendCall c token n b hc
    · by_cases hexp : n < cached.expires <;> simp [hexp]
      · exact hc
      · exact cacheValidOnly_backendCall c token n b hc

theorem verify_calls_backend_of_invalid (c : TokenCache) (token : String) (n : Nat)
    (b : VerifyBackend) (hc : cacheValidOnly c) (ht : token ≠ "")
    (hinv : (verifyToken c token n b).result.valid = false) :
    (verifyToken c token n b).backendCalled = true := by
  unfold verifyToken at *
  simp [ht] at hinv ⊢
  rcases hg : cacheGet c token with _ | cached <;> simp [hg] at hinv ⊢
  · exact verifyBackendCall_called c token n b
  · by_cases hexp : n < cached.expires <;> simp [hexp] at hinv ⊢
    · exact absurd (cacheGet_valid hc hg) (by simp [hinv])
    · exact verifyBackendCall_called c token n b

theorem verify_fresh_valid (c : TokenCache) (token : String) (n : Nat)
    (b1 : VerifyBackend) (ht : token ≠ "")
    (hvalid : (verifyToken c token n b1).result.valid = true)
    (hcall : (verifyToken c token n b1).backendCalled = true) :
    (verifyToken c token n b1).cache =
      cacheSet c token ⟨(verifyToken c token n b1).result, n + TOKEN_CACHE_TTL⟩ := by
  unfold verifyToken at *
  simp [ht] at *
  rcases hg : cacheGet c token with _ | cached <;> simp [hg] at hvalid hcall ⊢
  · cases b1 with
    | failure => simp [verifyBackendCall, unavailableResult] at hvalid
    | response data =>
        by_cases hv : data.valid <;> simp [verifyBackendCall, hv] at hvalid ⊢
  · by_cases hexp : n < cached.expires <;> simp [hexp] at hvalid hcall ⊢
    cases b1 with
    | failure => simp [verifyBackendCall, unavailableResult] at hvalid
    | response data =>
        by_cases hv : data.valid <;> simp [verifyBackendCall, hv] at hvalid ⊢

theorem verify_unavailable_of_failure (c : TokenCache) (token : String) (n : Nat)
    (hcall : (verifyToken c token n .failure).backendCalled = true) :
    (verifyToken c token n .failure).result = unavailableResult := by
  unfold verifyToken at *
  by_cases ht : token = "" <;> simp [ht] at hcall ⊢
  rcases hg : cacheGet c token with _ | cached <;> simp [hg] at hcall ⊢
  · rfl
  · by_cases hexp : n < cached.expires <;> simp [hexp] at hcall ⊢
    rfl

theorem reportUsage_batch (p mid : List UsageRecord) (b : FlushBackend) :
    (reportUsage p mid b).batch = p := by
  unfold reportUsage
  by_cases hp : p = [] <;> simp [hp]
  cases b <;> rfl

theorem reportUsage_failure (p mid : List UsageRecord) :
    (reportUsage p mid .failure).pending = mid ++ p := by
  unfold reportUsage
  by_cases hp : p = [] <;> simp [hp]

theorem reportUsage_conserv (p mid : List UsageRecord) (b : FlushBackend) :
    ((if (reportUsage p mid b).accepted then (reportUsage p mid b).batch else [] :
        List UsageRecord) : Multiset UsageRecord)
      + ((reportUsage p mid b).pending : Multiset UsageRecord)
      = (p : Multiset UsageRecord) + (mid : Multiset UsageRecord) := by
  unfold reportUsage
  by_cases hp : p = [] <;> simp [hp]
  cases b <;> simp
  exact List.perm_append_comm

theorem runFlushes_conserv (s : List (List UsageRecord × FlushBackend))
    (p : List UsageRecord) :
    ((runFlushes p s).2 : Multiset UsageRecord)
      + ((runFlushes p s).1 : Multiset UsageRecord)
      = (p : Multiset UsageRecord)
        + (((s.map Prod.fst).flatten : List UsageRecord) : Multiset UsageRecord) := by
  induction s generalizing p with
  | nil => simp [runFlushes]
  | cons hd tl ih =>
      rcases hd with ⟨mid, b⟩
      have hstep := reportUsage_conserv p mid b
      have htl := ih (reportUsage p mid b).pending
      simp only [runFlushes, List.map_cons, List.flatten_cons]
      push_cast at *
      rw [Multiset.coe_add]
      calc (↑(if (reportUsage p mid b).accepted then (reportUsage p mid b).batch else [])
              + ↑(runFlushes (reportUsage p mid b).pending tl).2 :
              Multiset UsageRecord)
            + ↑(runFlushes (reportUsage p mid b).pending tl).1
          = (↑(if (reportUsage p mid b).accepted then (reportUsage p mid b).batch else [])
              + (↑(runFlushes (reportUsage p mid b).pending tl).2
                 + ↑(runFlushes (reportUsage p mid b).pending tl).1) :
              Multiset UsageRecord) := by rw [add_assoc]
        _ = ↑(if (reportUsage p mid b).accepted then (reportUsage p mid b).batch else [])
              + (↑(reportUsage p mid b).pending + ↑(tl.map Prod.fst).flatten) := by rw [htl]
        _ = (↑p + ↑mid) + ↑(tl.map Prod.fst).flatten := by
              rw [← add_assoc, hstep]
        _ = ↑p + (↑mid + ↑(tl.map Prod.fst).flatten) := by rw [add_assoc]

theorem runFlushes_final_ok (s : List (List UsageRecord × FlushBackend))
    (p : List UsageRecord) :
    (runFlushes p (s ++ [([], .ok)])).1 = [] := by
  induction s generalizing p with
  | nil =>
      simp only [List.nil_append, runFlushes]
      unfold reportUsage
      by_cases hp : p = [] <;> simp [hp, runFlushes]
  | cons hd tl ih =>
      rcases hd with ⟨mid, b⟩
      simp only [List.cons_append, runFlushes]
      exact ih _

theorem map_fst_map_fail (fails : List (List UsageRecord)) :
    (List.map (fun m => (m, FlushBackend.failure)) fails).map Prod.fst = fails := by
  induction fails with
  | nil => rfl
  | cons h t ih => simp only [List.map_cons, ih]

theorem not_called_bp_none (R : String) (p : List UsageRecord) (c : TokenCache)
    (a : Option String) (vb : VerifyBackend) (n : Nat)
    (pu : Option ParsedUrl) (ob : OutboundOutcome) (e : Nat) (ts : String) :
    (handleFetch R p c a vb n none pu ob e ts).outboundCalled = false ∧
    (handleFetch R p c a vb n none pu ob e ts).pending = p := by
  unfold handleFetch
  repeat' split
  all_goals simp_all [apply_ite FetchEffect.pending, apply_ite FetchEffect.outboundCalled]

theorem not_called_url_missing (R : String) (p : List UsageRecord) (c : TokenCache)
    (a : Option String) (vb : VerifyBackend) (n : Nat) (body : FetchRequest)
    (pu : Option ParsedUrl) (ob : OutboundOutcome) (e : Nat) (ts : String)
    (hu : urlMissing body.url = true) :
    (handleFetch R p c a vb n (some body) pu ob e ts).outboundCalled = false ∧
    (handleFetch R p c a vb n (some body) pu ob e ts).pending = p := by
  unfold handleFetch
  repeat' split
  all_goals simp_all [apply_ite FetchEffect.pending, apply_ite FetchEffect.outboundCalled]

theorem not_called_pu_none (R : String) (p : List UsageRecord) (c : TokenCache)
    (a : Option String) (vb : VerifyBackend) (n : Nat) (bp : Option FetchRequest)
    (ob : OutboundOutcome) (e : Nat) (ts : String) :
    (handleFetch R p c a vb n bp none ob e ts).outboundCalled = false ∧
    (handleFetch R p c a vb n bp none ob e ts).pending = p := by
  unfold handleFetch
  repeat' split
  all_goals simp_all [apply_ite FetchEffect.pending, apply_ite FetchEffect.outboundCalled]

theorem not_called_blocked (R : String) (p : List UsageRecord) (c : TokenCache)
    (a : Option String) (vb : VerifyBackend) (n : Nat) (bp : Option FetchRequest)
    (u : ParsedUrl) (ob : OutboundOutcome) (e : Nat) (ts : String)
    (hb : isBlockedHost u.hostname = true) :
    (handleFetch R p c a vb n bp (some u) ob e ts).outboundCalled = false ∧
    (handleFetch R p c a vb n bp (some u) ob e ts).pending = p := by
  unfold handleFetch
  repeat' split
  all_goals simp_all [apply_ite FetchEffect.pending, apply_ite FetchEffect.outboundCalled]

theorem pending_of_success (R : String) (p : List UsageRecord) (c : TokenCache)
    (a : Option String) (vb : VerifyBackend) (n : Nat) (bp : Option FetchRequest)
    (pu : Option ParsedUrl) (s : Nat) (hd : List (String × String)) (b : String)
    (e : Nat) (ts : String)
    (hc : (handleFetch R p c a vb n bp pu (.success s hd b) e ts).outboundCalled = true) :
    ∃ r, (handleFetch R p c a vb n bp pu (.success s hd b) e ts).pending = p ++ [r] ∧
      r.metadata.status = s ∧ r.metadata.latency_ms = e := by
  unfold handleFetch at *
  repeat' split at hc
  all_goals simp_all [apply_ite FetchEffect.pending, apply_ite FetchEffect.outboundCalled]

theorem clampTimeout_le (t : Option Int) : clampTimeout t ≤ 30000 :=
  min_le_right _ _

/-! ## Claim theorems -/

/-- C1: for every fetch request that passes authentication, affordability
and validation and whose outbound call completes (success or an upstream
HTTP error response), exactly one usage record is appended to the ledger,
with metadata status equal to the upstream response status and latency
equal to the measured elapsed time; every request rejected at a validation
gate (malformed JSON, missing url, invalid URL, blocked host) appends zero
records. -/
theorem C1_completed_forward_appends_exactly_one_record
    (R : String) (p : List UsageRecord) (c : TokenCache)
    (a : Option String) (vb : VerifyBackend) (n : Nat) (bp : Option FetchRequest)
    (pu : Option ParsedUrl) (ob : OutboundOutcome) (e : Nat) (ts : String) :
    (∀ s hd b, ob = .success s hd b →
      (handleFetch R p c a vb n bp pu ob e ts).outboundCalled = true →
      ∃ r, (handleFetch R p c a vb n bp pu ob e ts).pending = p ++ [r] ∧
        r.metadata.status = s ∧ r.metadata.latency_ms = e) ∧
    (bp = none → (handleFetch R p c a vb n bp pu ob e ts).pending = p) ∧
    (∀ body, bp = some body → urlMissing body.url = true →
      (handleFetch R p c a vb n bp pu ob e ts).pending = p) ∧
    (pu = none → (handleFetch R p c a vb n bp pu ob e ts).pending = p) ∧
    (∀ u, pu = some u → isBlockedHost u.hostname = true →
      (handleFetch R p c a vb n bp pu ob e ts).pending = p) := by
  refine ⟨?_, ?_, ?_, ?_, ?_⟩
  · intro s hd b hob hc
    subst hob
    exact pending_of_success R p c a vb n bp pu s hd b e ts hc
  · intro h; subst h; exact (not_called_bp_none R p c a vb n pu ob e ts).2
  · intro body h hu; subst h
    exact (not_called_url_missing R p c a vb n body pu ob e ts hu).2
  · intro h; subst h; exact (not_called_pu_none R p c a vb n bp ob e ts).2
  · intro u h hb; subst h
    exact (not_called_blocked R p c a vb n bp u ob e ts hb).2

/-- C1 witness: a concrete completed forward appends exactly one record
with the upstream status 200 and the measured latency 50. -/
theorem C1_completed_forward_witness :
    ∃ r, (handleFetch "us-east" [] [] (some "Bearer t") (.response wAuth) 0
        (some wBody) (some ⟨"example.com"⟩) (.success 200 [] "hello") 50 wTs).pending
        = [] ++ [r] ∧ r.metadata.status = 200 ∧ r.metadata.latency_ms = 50 :=
  (C1_completed_forward_appends_exactly_one_record "us-east" [] []
      (some "Bearer t") (.response wAuth) 0
      (some wBody) (some ⟨"example.com"⟩) (.success 200 [] "hello") 50 wTs).1
    200 [] "hello" rfl (by decide)

/-- C2 counterexample: a concrete authenticated, validated request whose
outbound call times out produces the 504 response, yet the ledger stays
empty — no usage record at all is appended, contradicting the claim that
one record with a timeout status is written. -/
theorem C2_counterexample_timeout_appends_no_record :
    (handleFetch "us-east" [] [] (some "Bearer t") (.response wAuth) 0
       (some wBody) (some ⟨"example.com"⟩) .timeoutErr 30000 wTs).output.httpStatus = 504 ∧
    (handleFetch "us-east" [] [] (some "Bearer t") (.response wAuth) 0
       (some wBody) (some ⟨"example.com"⟩) .timeoutErr 30000 wTs).outboundCalled = true ∧
    (handleFetch "us-east" [] [] (some "Bearer t") (.response wAuth) 0
       (some wBody) (some ⟨"example.com"⟩) .timeoutErr 30000 wTs).pending = [] := by
  decide

/-- C2 (amended): for every fetch request whose outbound call times out,
the response is a 504 carrying the region and the measured latency, and no
usage record is appended to the ledger — the record push sits only on the
success path of the source, so the catch branch bills nothing. -/
theorem C2_timeout_504_amended (R : String) (p : List UsageRecord) (c : TokenCache)
    (a : Option String) (vb : VerifyBackend) (n : Nat) (bp : Option FetchRequest)
    (pu : Option ParsedUrl) (e : Nat) (ts : String)
    (hc : (handleFetch R p c a vb n bp pu .timeoutErr e ts).outboundCalled = true) :
    (handleFetch R p c a vb n bp pu .timeoutErr e ts).output.httpStatus = 504 ∧
    (handleFetch R p c a vb n bp pu .timeoutErr e ts).output.errorMsg =
      some "Request timeout" ∧
    (handleFetch R p c a vb n bp pu .timeoutErr e ts).output.region = some R ∧
    (handleFetch R p c a vb n bp pu .timeoutErr e ts).output.latency_ms = some e ∧
    (handleFetch R p c a vb n bp pu .timeoutErr e ts).pending = p := by
  unfold handleFetch at *
  repeat' split at hc
  all_goals simp_all [apply_ite FetchEffect.pending, apply_ite FetchEffect.outboundCalled,
    apply_ite FetchEffect.output, apply_ite RouteOutput.httpStatus,
    apply_ite RouteOutput.errorMsg, apply_ite RouteOutput.region,
    apply_ite RouteOutput.latency_ms]

/-- C2 witness: the amended theorem applied to a concrete timed-out
request. -/
theorem C2_timeout_504_witness :
    (handleFetch "us-east" [] [] (some "Bearer t") (.response wAuth) 0
       (some wBody) (some ⟨"example.com"⟩) .timeoutErr 30000 wTs).output.httpStatus = 504 ∧
    (handleFetch "us-east" [] [] (some "Bearer t") (.response wAuth) 0
       (some wBody) (some ⟨"example.com"⟩) .timeoutErr 30000 wTs).output.errorMsg =
      some "Request timeout" ∧
    (handleFetch "us-east" [] [] (some "Bearer t") (.response wAuth) 0
       (some wBody) (some ⟨"example.com"⟩) .timeoutErr 30000 wTs).output.region =
      some "us-east" ∧
    (handleFetch "us-east" [] [] (some "Bearer t") (.response wAuth) 0
       (some wBody) (some ⟨"example.com"⟩) .timeoutErr 30000 wTs).output.latency_ms =
      some 30000 ∧
    (handleFetch "us-east" [] [] (some "Bearer t") (.response wAuth) 0
       (some wBody) (some ⟨"example.com"⟩) .timeoutErr 30000 wTs).pending = [] :=
  C2_timeout_504_amended "us-east" [] [] (some "Bearer t") (.response wAuth) 0
    (some wBody) (some ⟨"example.com"⟩) 30000 wTs (by decide)

/-- C3: a flush drains all currently-pending records as one batch before any
network call (records appended mid-flush are not part of the batch); on
failure exactly that batch is pushed back; across any sequence of flush
cycles the accepted-batch multiset plus the final ledger equals the initial
ledger plus everything appended, so a run of failed flushes followed by a
successful one submits every record exactly once — no duplicates, no
losses. -/
theorem C3_flush_exact_batch_and_conservation
    (p mid : List UsageRecord) (b : FlushBackend)
    (s : List (List UsageRecord × FlushBackend))
    (fails : List (List UsageRecord)) :
    (reportUsage p mid b).batch = p ∧
    (b = .failure → (reportUsage p mid b).pending = mid ++ p) ∧
    (((runFlushes p s).2 : Multiset UsageRecord)
       + ((runFlushes p s).1 : Multiset UsageRecord)
       = (p : Multiset UsageRecord)
         + (((s.map Prod.fst).flatten : List UsageRecord) : Multiset UsageRecord)) ∧
    (((runFlushes p ((fails.map (fun m => (m, FlushBackend.failure)))
          ++ [([], FlushBackend.ok)])).2 : Multiset UsageRecord)
       = (p : Multiset UsageRecord)
         + ((fails.flatten : List UsageRecord) : Multiset UsageRecord)) := by
  refine ⟨reportUsage_batch p mid b, fun hb => hb ▸ reportUsage_failure p mid,
    runFlushes_conserv s p, ?_⟩
  have hfin := runFlushes_final_ok (fails.map (fun m => (m, FlushBackend.failure))) p
  have hcons := runFlushes_conserv
      ((fails.map (fun m => (m, FlushBackend.failure))) ++ [([], FlushBackend.ok)]) p
  rw [hfin] at hcons
  have hmap := map_fst_map_fail fails
  rw [List.map_append] at hcons
  simp only [List.map_cons, List.map_nil, hmap] at hcons
  simpa using hcons

/-- C3 witness: a concrete failed flush pushes the exact batch back onto
the ledger. -/
theorem C3_flush_witness :
    (reportUsage [wRecord "agent-A"] [] .failure).pending = [] ++ [wRecord "agent-A"] :=
  (C3_flush_exact_batch_and_conservation [wRecord "agent-A"] [] .failure [] []).2.1 rfl

/-- C4: after a verification of a non-empty token performed a backend call
and returned valid true, any second verification of the same token strictly
before the 60-second TTL expires returns the identical result with no
backend call and leaves the cache unchanged; a verification at or after the
expiry performs a backend call again. -/
theorem C4_cache_hit_within_ttl (c : TokenCache) (token : String) (n : Nat)
    (b1 : VerifyBackend) (ht : token ≠ "")
    (hvalid : (verifyToken c token n b1).result.valid = true)
    (hcall : (verifyToken c token n b1).backendCalled = true) :
    (∀ t1 b2, t1 < n + TOKEN_CACHE_TTL →
       verifyToken (verifyToken c token n b1).cache token t1 b2 =
         ⟨(verifyToken c token n b1).result, (verifyToken c token n b1).cache, false⟩) ∧
    (∀ t1 b2, n + TOKEN_CACHE_TTL ≤ t1 →
       (verifyToken (verifyToken c token n b1).cache token t1 b2).backendCalled = true) := by
  have hch := verify_fresh_valid c token n b1 ht hvalid hcall
  constructor
  · intro t1 b2 hlt
    rw [hch]
    unfold verifyToken
    simp [ht, cacheGet_cacheSet_self, hlt, ← hch]
  · intro t1 b2 hge
    rw [hch]
    unfold verifyToken
    simp [ht, cacheGet_cacheSet_self, Nat.not_lt.mpr hge, verifyBackendCall_called]

/-- C4 witness: a concrete fresh valid verification followed by a lookup
1000 milliseconds later is served from the cache with no backend call. -/
theorem C4_cache_hit_witness :
    verifyToken (verifyToken [] "t" 0 (.response wAuth)).cache "t" 1000 .failure =
      ⟨(verifyToken [] "t" 0 (.response wAuth)).result,
        (verifyToken [] "t" 0 (.response wAuth)).cache, false⟩ :=
  (C4_cache_hit_within_ttl [] "t" 0 (.response wAuth)
      (by decide) (by decide) (by decide)).1 1000 .failure (by decide)

/-- C5: when the call to the external verify endpoint fails, verification
returns valid false with the reason "Authentication service unavailable",
the fetch route rejects the request with 401 carrying that reason, no
outbound call is made, and no usage record is appended — backend
unavailability is never interpreted as authorization. -/
theorem C5_fail_closed_on_backend_failure (R : String) (p : List UsageRecord)
    (c : TokenCache) (a : Option String) (n : Nat) (bp : Option FetchRequest)
    (pu : Option ParsedUrl) (ob : OutboundOutcome) (e : Nat) (ts : String)
    (token : String) (hbt : bearerToken a = some token)
    (hcall : (verifyToken c token n .failure).backendCalled = true) :
    (verifyToken c token n .failure).result =
      { valid := false, error := some "Authentication service unavailable" } ∧
    (handleFetch R p c a .failure n bp pu ob e ts).output.httpStatus = 401 ∧
    (handleFetch R p c a .failure n bp pu ob e ts).output.errorMsg =
      some "Authentication service unavailable" ∧
    (handleFetch R p c a .failure n bp pu ob e ts).pending = p ∧
    (handleFetch R p c a .failure n bp pu ob e ts).outboundCalled = false := by
  have hres := verify_unavailable_of_failure c token n hcall
  refine ⟨hres, ?_⟩
  unfold handleFetch
  rw [hbt]
  simp [hres, unavailableResult]

/-- C5 witness: a concrete request with an unreachable identity backend is
rejected 401 with the unavailable reason and appends nothing. -/
theorem C5_fail_closed_witness :
    (verifyToken [] "t" 0 .failure).result =
      { valid := false, error := some "Authentication service unavailable" } ∧
    (handleFetch "us-east" [] [] (some "Bearer t") .failure 0 (some wBody)
       (some ⟨"example.com"⟩) (.success 200 [] "hello") 50 wTs).output.httpStatus = 401 ∧
    (handleFetch "us-east" [] [] (some "Bearer t") .failure 0 (some wBody)
       (some ⟨"example.com"⟩) (.success 200 [] "hello") 50 wTs).output.errorMsg =
      some "Authentication service unavailable" ∧
    (handleFetch "us-east" [] [] (some "Bearer t") .failure 0 (some wBody)
       (some ⟨"example.com"⟩) (.success 200 [] "hello") 50 wTs).pending = [] ∧
    (handleFetch "us-east" [] [] (some "Bearer t") .failure 0 (some wBody)
       (some ⟨"example.com"⟩) (.success 200 [] "hello") 50 wTs).outboundCalled = false :=
  C5_fail_closed_on_backend_failure "us-east" [] [] (some "Bearer t") 0 (some wBody)
    (some ⟨"example.com"⟩) (.success 200 [] "hello") 50 wTs "t" (by decide) (by decide)

/-- C6: the token cache only ever stores entries whose result is valid:
whenever a verification yields an invalid result the cache is unchanged,
the valid-only invariant is preserved by every verification, and under that
invariant a non-empty token whose verification comes back invalid always
reached the backend — repeating the same invalid token re-queries it. -/
theorem C6_invalid_never_cached (c : TokenCache) (token : String) (n : Nat)
    (b : VerifyBackend) (hvonly : cacheValidOnly c) :
    ((verifyToken c token n b).result.valid = false →
       (verifyToken c token n b).cache = c) ∧
    cacheValidOnly (verifyToken c token n b).cache ∧
    (token ≠ "" → (verifyToken c token n b).result.valid = false →
       (verifyToken c token n b).backendCalled = true) :=
  ⟨verify_cache_unchanged_of_invalid c token n b,
   cacheValidOnly_verify c token n b hvonly,
   fun ht hinv => verify_calls_backend_of_invalid c token n b hvonly ht hinv⟩

/-- C6 witness: a concrete invalid verification leaves the cache empty and
reached the backend. -/
theorem C6_invalid_never_cached_witness :
    (verifyToken [] "t" 0 (.response wInvalid)).cache = [] ∧
    (verifyToken [] "t" 0 (.response wInvalid)).backendCalled = true :=
  ⟨(C6_invalid_never_cached [] "t" 0 (.response wInvalid)
      (by simp [cacheValidOnly])).1 (by decide),
    (C6_invalid_never_cached [] "t" 0 (.response wInvalid)
      (by simp [cacheValidOnly])).2.2 (by decide) (by decide)⟩

/-- C7: for every fetch request whose target hostname equals 127.0.0.1 or
localhost, or starts with the literal prefixes of the two private ranges,
no outbound call is made and no usage record is appended; when the request
passed authentication, affordability and the earlier body checks, the
response is 403 with the internal-URL reason. -/
theorem C7_blocked_host_rejected_403 (R : String) (p : List UsageRecord)
    (c : TokenCache) (a : Option String) (vb : VerifyBackend) (n : Nat)
    (bp : Option FetchRequest) (ob : OutboundOutcome) (e : Nat) (ts : String)
    (u : ParsedUrl)
    (hblocked : u.hostname = "127.0.0.1" ∨ u.hostname = "localhost" ∨
      jsStartsWith u.hostname "10." = true ∨ jsStartsWith u.hostname "192.168." = true) :
    ((handleFetch R p c a vb n bp (some u) ob e ts).outboundCalled = false ∧
     (handleFetch R p c a vb n bp (some u) ob e ts).pending = p) ∧
    (∀ token body, bearerToken a = some token →
      (verifyToken c token n vb).result.valid = true →
      (verifyToken c token n vb).result.can_afford ≠ some false →
      bp = some body → urlMissing body.url = false →
      (handleFetch R p c a vb n bp (some u) ob e ts).output.httpStatus = 403 ∧
      (handleFetch R p c a vb n bp (some u) ob e ts).output.errorMsg =
        some "Internal URLs not allowed") := by
  have hblk : isBlockedHost u.hostname = true := by
    unfold isBlockedHost
    rcases hblocked with h | h | h | h <;> simp [h]
  refine ⟨not_called_blocked R p c a vb n bp u ob e ts hblk, ?_⟩
  intro token body hbt hvalid haff hbp hu
  subst hbp
  unfold handleFetch
  rw [hbt]
  simp [hvalid, haff, hu, hblk]

/-- C7 witness: a concrete authenticated request targeting 127.0.0.1 is
rejected with 403 and the internal-URL reason. -/
theorem C7_blocked_host_witness :
    (handleFetch "us-east" [] [] (some "Bearer t") (.response wAuth) 0
       (some wBody) (some ⟨"127.0.0.1"⟩) (.success 200 [] "x") 50 wTs).output.httpStatus
      = 403 ∧
    (handleFetch "us-east" [] [] (some "Bearer t") (.response wAuth) 0
       (some wBody) (some ⟨"127.0.0.1"⟩) (.success 200 [] "x") 50 wTs).output.errorMsg
      = some "Internal URLs not allowed" :=
  (C7_blocked_host_rejected_403 "us-east" [] [] (some "Bearer t") (.response wAuth) 0
      (some wBody) (.success 200 [] "x") 50 wTs ⟨"127.0.0.1"⟩ (Or.inl rfl)).2
    "t" wBody (by decide) (by decide) (by decide) rfl (by decide)

/-- C8: on every completed forward, the record is appended on the request
path and the fire-and-forget flush signal is raised exactly when the new
ledger length exceeds the 10000-record cap; the effect returned by the
request path still carries the full appended ledger — the flush is
signalled, never awaited or applied in-line. -/
theorem C8_cap_exceeded_triggers_flush (R : String) (p : List UsageRecord)
    (c : TokenCache) (a : Option String) (vb : VerifyBackend) (n : Nat)
    (bp : Option FetchRequest) (pu : Option ParsedUrl) (s : Nat)
    (hd : List (String × String)) (b : String) (e : Nat) (ts : String)
    (hc : (handleFetch R p c a vb n bp pu (.success s hd b) e ts).outboundCalled = true) :
    ∃ r, (handleFetch R p c a vb n bp pu (.success s hd b) e ts).pending = p ++ [r] ∧
      ((handleFetch R p c a vb n bp pu (.success s hd b) e ts).flushTriggered = true ↔
        (handleFetch R p c a vb n bp pu (.success s hd b) e ts).pending.length > 10000) := by
  unfold handleFetch at *
  repeat' split at hc
  all_goals simp_all [apply_ite FetchEffect.pending, apply_ite FetchEffect.outboundCalled,
    apply_ite FetchEffect.flushTriggered]

/-- C8 witness: a concrete completed forward below the cap appends its
record and raises no flush signal. -/
theorem C8_cap_witness :
    ∃ r, (handleFetch "us-east" [] [] (some "Bearer t") (.response wAuth) 0
        (some wBody) (some ⟨"example.com"⟩) (.success 200 [] "hello") 50 wTs).pending
        = [] ++ [r] ∧
      ((handleFetch "us-east" [] [] (some "Bearer t") (.response wAuth) 0
          (some wBody) (some ⟨"example.com"⟩) (.success 200 [] "hello") 50 wTs).flushTriggered
          = true ↔
        (handleFetch "us-east" [] [] (some "Bearer t") (.response wAuth) 0
          (some wBody) (some ⟨"example.com"⟩) (.success 200 [] "hello") 50 wTs).pending.length
          > 10000) :=
  C8_cap_exceeded_triggers_flush "us-east" [] [] (some "Bearer t") (.response wAuth) 0
    (some wBody) (some ⟨"example.com"⟩) 200 [] "hello" 50 wTs (by decide)

/-- C9: whenever the fetch route issues an outbound call, the timeout it
passes to the abort signal is at most 30000 milliseconds, regardless of the
timeout value supplied by the caller. -/
theorem C9_timeout_clamped_to_30000 (R : String) (p : List UsageRecord)
    (c : TokenCache) (a : Option String) (vb : VerifyBackend) (n : Nat)
    (bp : Option FetchRequest) (pu : Option ParsedUrl) (ob : OutboundOutcome)
    (e : Nat) (ts : String) (x : Int)
    (hx : (handleFetch R p c a vb n bp pu ob e ts).timeoutMs = some x) :
    x ≤ 30000 := by
  unfold handleFetch at hx
  repeat' split at hx
  all_goals simp_all [apply_ite FetchEffect.timeoutMs]
  all_goals (rcases hx with ⟨-, -, hx⟩; rw [← hx]; exact clampTimeout_le _)

/-- C9 witness: a concrete request asking for 5000 milliseconds runs under
a timeout no greater than 30000. -/
theorem C9_timeout_clamp_witness : (5000 : Int) ≤ 30000 :=
  C9_timeout_clamped_to_30000 "us-east" [] [] (some "Bearer t") (.response wAuth) 0
    (some wBody) (some ⟨"example.com"⟩) (.success 200 [] "hello") 50 wTs 5000 (by decide)

/-- C10: for every authenticated usage request, the pending_records field
equals the number of pending ledger records whose agent_id matches the
verified agent — not the total ledger length, which is what the health
route reports; a concrete two-agent ledger shows the two counts differ. -/
theorem C10_usage_reports_agent_filtered_count (R ts : String)
    (p : List UsageRecord) (c : TokenCache) (a : Option String)
    (vb : VerifyBackend) (n : Nat) (token : String)
    (hbt : bearerToken a = some token)
    (hvalid : (verifyToken c token n vb).result.valid = true) :
    ((handleUsage R p c a vb n).httpStatus = 200 ∧
     (handleUsage R p c a vb n).pending_records =
       some (p.filter (fun r =>
         decide (some r.agent_id = (verifyToken c token n vb).result.agent_id))).length) ∧
    (handleHealth R ts p).pending_usage_records = p.length ∧
    ((handleUsage "us-east" [wRecord "agent-A", wRecord "agent-B"] []
        (some "Bearer t") (.response wAuth) 0).pending_records = some 1 ∧
     (handleHealth "us-east" "2025-01-01T00:00:00Z"
        [wRecord "agent-A", wRecord "agent-B"]).pending_usage_records = 2) := by
  refine ⟨?_, rfl, by decide⟩
  unfold handleUsage
  rw [hbt]
  simp [hvalid]

/-- C10 witness: the theorem applied to a concrete two-agent ledger, where
the usage route reports the filtered count. -/
theorem C10_usage_witness :
    (handleUsage "us-east" [wRecord "agent-A", wRecord "agent-B"] []
       (some "Bearer t") (.response wAuth) 0).httpStatus = 200 ∧
    (handleUsage "us-east" [wRecord "agent-A", wRecord "agent-B"] []
       (some "Bearer t") (.response wAuth) 0).pending_records =
      some (([wRecord "agent-A", wRecord "agent-B"].filter (fun r =>
        decide (some r.agent_id =
          (verifyToken [] "t" 0 (.response wAuth)).result.agent_id))).length) :=
  (C10_usage_reports_agent_filtered_count "us-east" wTs
      [wRecord "agent-A", wRecord "agent-B"] []
      (some "Bearer t") (.response wAuth) 0 "t" (by decide) (by decide)).1

end KeyFetch
